import Mathlib

/-!
Shallow embedding of the collision / physics core of the `trappy-sdl`
2D platformer (C++/SDL2) and verification of its specification claims.

Modelling conventions:
* `SDL_FRect` / float coordinates are embedded as rational numbers (`ℚ`);
  the code performs only comparisons, additions, subtractions,
  multiplications and divisions by constants, all exact over `ℚ`.
* C++ member mutation becomes explicit state passing on Lean structures.
* Null pointers are embedded as `Option`; dereferencing `none` is modelled
  as returning `none` from the enclosing operation (a crash has no result).
* Numeric tuning constants come from `include/config.h`, which is not part
  of the sources; they are kept as abstract parameters (fields of
  `PConfig` / entity fields), so every theorem holds for all values unless
  it explicitly constrains them.
-/

namespace TrappySdl

/-- Embeds `SDL_FRect`: an axis-aligned box with top-left corner `(x, y)`,
width `w` and height `h`. -/
structure FRect where
  x : ℚ
  y : ℚ
  w : ℚ
  h : ℚ
deriving DecidableEq, Repr

/-- Embeds `ObjectType` from `include/collideable.h`. -/
inductive ObjectType where
  | PLAYER
  | STATIC_OBJECT
  | PROJECTILE
deriving DecidableEq, Repr

namespace CollisionSystem

/-- Embeds `CollisionSystem::checkAABB` (src/collision_system.cpp):
strict-inequality AABB overlap test. -/
def checkAABB (a b : FRect) : Bool :=
  decide (a.x < b.x + b.w) && decide (a.x + a.w > b.x) &&
    decide (a.y < b.y + b.h) && decide (a.y + a.h > b.y)

/-- The three out-parameters of `CollisionSystem::computeCollisionInfo`. -/
structure CollisionInfo where
  normalX : ℚ
  normalY : ℚ
  penetration : ℚ
deriving DecidableEq, Repr

/-- The local `overlapX` computed inside `computeCollisionInfo`. -/
def overlapX (a b : FRect) : ℚ :=
  min (a.x + a.w) (b.x + b.w) - max a.x b.x

/-- The local `overlapY` computed inside `computeCollisionInfo`. -/
def overlapY (a b : FRect) : ℚ :=
  min (a.y + a.h) (b.y + b.h) - max a.y b.y

/-- Embeds `CollisionSystem::computeCollisionInfo`
(src/collision_system.cpp): single-axis MTV with the smaller-overlap axis
chosen by strict `<`, normal sign from comparing box centers. -/
def computeCollisionInfo (a b : FRect) : CollisionInfo :=
  if overlapX a b < overlapY a b then
    { normalX := if a.x + a.w / 2 < b.x + b.w / 2 then -1 else 1
      normalY := 0
      penetration := overlapX a b }
  else
    { normalX := 0
      normalY := if a.y + a.h / 2 < b.y + b.h / 2 then -1 else 1
      penetration := overlapY a b }

end CollisionSystem

/-- Embeds `Direction` from `include/player.h`. -/
inductive Direction where
  | LEFT
  | UP
  | RIGHT
  | DOWN
deriving DecidableEq, Repr

/-- Embeds `MovementState` from `include/player.h`. -/
inductive MovementState where
  | IDLE
  | MOVING
  | JUMPING
  | CROUCHING
deriving DecidableEq, Repr

/-- One group of state-dependent hitbox-shrink constants
(`*_Y_OFFSET_PERCENT`, `*_HEIGHT_REDUCTION_PERCENT`,
`*_X_OFFSET_RIGHT_PERCENT`, `*_X_OFFSET_LEFT_PERCENT`,
`*_WIDTH_REDUCTION_PERCENT`) from the absent `include/config.h`; kept
abstract. -/
structure ShrinkParams where
  yOffsetPercent : ℚ
  heightReductionPercent : ℚ
  xOffsetRightPercent : ℚ
  xOffsetLeftPercent : ℚ
  widthReductionPercent : ℚ
deriving DecidableEq, Repr

/-- The numeric tuning constants of `include/config.h` that
`src/player.cpp` reads; the header is not part of the sources, so the
constants stay abstract parameters. -/
structure PConfig where
  playerSpeed : ℚ
  playerJumpForce : ℚ
  playerJumpReducedForce : ℚ
  slowSpeedMultiplier : ℚ
  slowJumpMultiplier : ℚ
  playerFastFallSpeed : ℚ
  idleParams : ShrinkParams
  movingParams : ShrinkParams
  jumpingParams : ShrinkParams
  crouchParams : ShrinkParams
deriving DecidableEq, Repr

/-- Embeds the state of `RectPlayer` (src/player.cpp): render rect,
precise position, velocity, jump/dash/crouch timers and flags. Sprite,
animation-frame and audio members are render-only and omitted. -/
structure RectPlayer where
  rect : FRect
  pos_x : ℚ
  pos_y : ℚ
  state : MovementState
  vel_x : ℚ
  vel_y : ℚ
  gravity : ℚ
  onGround : Bool
  isJumping : Bool
  jumpDuration : ℚ
  jumpTimer : ℚ
  lastDirection : ℤ
  crouching : Bool
  dashing : Bool
  dashSpeed : ℚ
  dashDuration : ℚ
  dashTimer : ℚ
  dashCooldown : ℚ
  dashCooldownTimer : ℚ
  dashDirection : Direction
  isSlowed : Bool
deriving DecidableEq, Repr

namespace RectPlayer

/-- Embeds `RectPlayer::resetJump`. -/
def resetJump (p : RectPlayer) : RectPlayer :=
  { p with jumpTimer := 0, isJumping := false }

/-- Embeds `RectPlayer::setGrounded`: sets the flag and, when grounding,
also resets the jump state. -/
def setGrounded (grounded : Bool) (p : RectPlayer) : RectPlayer :=
  let p := { p with onGround := grounded }
  if grounded then resetJump p else p

/-- Embeds `RectPlayer::setCrouch`: enabling also zeroes both velocity
components. -/
def setCrouch (enable : Bool) (p : RectPlayer) : RectPlayer :=
  if enable then { p with crouching := true, vel_x := 0, vel_y := 0 }
  else { p with crouching := false }

/-- Embeds `RectPlayer::canDash`. -/
def canDash (p : RectPlayer) : Bool :=
  decide (p.dashCooldownTimer ≤ 0) && !p.dashing

/-- Embeds `RectPlayer::startDash`. -/
def startDash (direction : Direction) (p : RectPlayer) : RectPlayer :=
  if !canDash p then p
  else
    { p with dashing := true, dashDirection := direction, dashTimer := 0,
             isJumping := false }

/-- Embeds `RectPlayer::stopDash`. -/
def stopDash (p : RectPlayer) : RectPlayer :=
  { p with dashing := false, dashTimer := 0,
           dashCooldownTimer := p.dashCooldown }

/-- Embeds `RectPlayer::updateDash`. -/
def updateDash (dt : ℚ) (p : RectPlayer) : RectPlayer :=
  let p :=
    if p.dashCooldownTimer > 0 then
      { p with dashCooldownTimer := p.dashCooldownTimer - dt }
    else p
  if p.dashing then
    let p := { p with dashTimer := p.dashTimer + dt }
    if p.dashTimer ≥ p.dashDuration then stopDash p else p
  else p

/-- Embeds `RectPlayer::getEffectiveSpeed`. -/
def getEffectiveSpeed (cfg : PConfig) (p : RectPlayer) : ℚ :=
  if p.isSlowed then cfg.playerSpeed * cfg.slowSpeedMultiplier
  else cfg.playerSpeed

/-- Embeds `RectPlayer::getEffectiveJumpForce`. -/
def getEffectiveJumpForce (cfg : PConfig) (p : RectPlayer) : ℚ :=
  if p.isSlowed then cfg.playerJumpForce * cfg.slowJumpMultiplier
  else cfg.playerJumpForce

/-- Embeds `RectPlayer::stateHandle`: the movement state derived each
tick by priority crouching > jumping > dashing-or-moving > idle. -/
def stateHandle (p : RectPlayer) : RectPlayer :=
  { p with state :=
      if p.crouching then MovementState.CROUCHING
      else if p.isJumping then MovementState.JUMPING
      else if p.dashing then MovementState.MOVING
      else if p.vel_x ≠ 0 then MovementState.MOVING
      else MovementState.IDLE }

/-- The dash-input block of `RectPlayer::handleMovement`
(src/player.cpp): start a dash in the facing direction when requested and
allowed, stop it when the button is released while dashing. -/
def dashInputStep (dash : Bool) (p : RectPlayer) : RectPlayer :=
  if dash then
    if canDash p then
      startDash
        (if p.lastDirection > 0 then Direction.RIGHT else Direction.LEFT) p
    else p
  else if p.dashing then stopDash p else p

/-- The horizontal-movement block of `RectPlayer::handleMovement`:
`vel_x = 0`, then left/right speed and facing updates unless dashing. -/
def horizontalStep (cfg : PConfig) (moveLeft moveRight : Bool)
    (p : RectPlayer) : RectPlayer :=
  let p := { p with vel_x := 0 }
  if !p.dashing then
    let p :=
      if moveLeft then
        { p with vel_x := p.vel_x - getEffectiveSpeed cfg p,
                 lastDirection := -1 }
      else p
    if moveRight then
      { p with vel_x := p.vel_x + getEffectiveSpeed cfg p, lastDirection := 1 }
    else p
  else p

/-- The jump block of `RectPlayer::handleMovement`: initial jump from the
ground, variable-height extension while the held timer is below the
duration cap (full force in the first half of the window, reduced force in
the second, slowed multiplier applied on top), and `resetJump` when the
button is released. -/
def jumpStep (cfg : PConfig) (dt : ℚ) (jump : Bool) (p : RectPlayer) :
    RectPlayer :=
  if jump then
    if p.onGround then
      { p with isJumping := true, onGround := false, crouching := false,
               vel_y := -getEffectiveJumpForce cfg p * dt, jumpTimer := 0 }
    else if p.isJumping && decide (p.jumpTimer < p.jumpDuration / 1000) then
      let jumpPower :=
        if p.jumpTimer < p.jumpDuration / 2000 then getEffectiveJumpForce cfg p
        else cfg.playerJumpReducedForce
      let jumpPower :=
        if p.isSlowed then jumpPower * cfg.slowJumpMultiplier else jumpPower
      { p with vel_y := -jumpPower * dt, jumpTimer := p.jumpTimer + dt }
    else p
  else resetJump p

/-- The fast-fall block of `RectPlayer::handleMovement`. -/
def fastFallStep (cfg : PConfig) (dt : ℚ) (fastFall : Bool)
    (p : RectPlayer) : RectPlayer :=
  if fastFall && !p.onGround then
    { p with vel_y := p.vel_y + cfg.playerFastFallSpeed * dt }
  else p

/-- Embeds `RectPlayer::handleMovement` (src/player.cpp): per-tick input
resolution in source order — crouch early-return, dash start/stop,
horizontal speed, gravity overwrite (`vel_y = gravity * dt`),
variable-height jump, fast fall. -/
def handleMovement (cfg : PConfig) (dt : ℚ)
    (moveLeft moveRight jump fastFall dash crouch : Bool)
    (p : RectPlayer) : RectPlayer :=
  if crouch && p.onGround then setCrouch true p
  else
    let p := horizontalStep cfg moveLeft moveRight
      (dashInputStep dash (setCrouch false p))
    fastFallStep cfg dt fastFall
      (jumpStep cfg dt jump { p with vel_y := p.gravity * dt })

/-- The position-integration block of `RectPlayer::update`
(src/player.cpp): dash movement (with gravity while airborne) or normal
movement (`pos_x += vel_x * dt`, ground clamp of a downward velocity,
`pos_y += vel_y` — the velocity already carries the `dt` factor). -/
def integrateStep (dt : ℚ) (p : RectPlayer) : RectPlayer :=
  if p.dashing then
    let dashVelX :=
      if p.dashDirection = Direction.RIGHT then p.dashSpeed else -p.dashSpeed
    let p := { p with pos_x := p.pos_x + dashVelX * dt }
    if !p.onGround then { p with pos_y := p.pos_y + p.gravity * dt } else p
  else
    let p := { p with pos_x := p.pos_x + p.vel_x * dt }
    let p :=
      if p.onGround then
        { p with vel_y := if p.vel_y > 0 then 0 else p.vel_y }
      else p
    { p with pos_y := p.pos_y + p.vel_y }

/-- Embeds `RectPlayer::update` (src/player.cpp): dash bookkeeping,
crouch early-return, position integration, rect sync and state
recomputation. Sprite/animation updates are render-only and omitted. -/
def update (dt : ℚ) (p : RectPlayer) : RectPlayer :=
  let p := updateDash dt p
  if p.crouching then stateHandle p
  else
    let p := integrateStep dt p
    stateHandle { p with rect := { p.rect with x := p.pos_x, y := p.pos_y } }

/-- The shrink-constant group `RectPlayer::getCollisionBounds` selects
for a movement state. -/
def shrinkFor (cfg : PConfig) : MovementState → ShrinkParams
  | MovementState.CROUCHING => cfg.crouchParams
  | MovementState.MOVING => cfg.movingParams
  | MovementState.IDLE => cfg.idleParams
  | MovementState.JUMPING => cfg.jumpingParams

/-- Embeds `RectPlayer::getCollisionBounds` (src/player.cpp): the render
rect shrunk by state-dependent percentages, horizontally offset by facing
direction. -/
def getCollisionBounds (cfg : PConfig) (p : RectPlayer) : FRect :=
  { x := p.rect.x +
      (if p.lastDirection = 1 then
        p.rect.w * (shrinkFor cfg p.state).xOffsetRightPercent
      else p.rect.w * (shrinkFor cfg p.state).xOffsetLeftPercent)
    y := p.rect.y + p.rect.h * (shrinkFor cfg p.state).yOffsetPercent
    w := p.rect.w - p.rect.w * (shrinkFor cfg p.state).widthReductionPercent
    h := p.rect.h - p.rect.h * (shrinkFor cfg p.state).heightReductionPercent }

/-- Embeds `RectPlayer::setPos`: updates the precise position and the
render rect together. -/
def setPos (x y : ℚ) (p : RectPlayer) : RectPlayer :=
  { p with pos_x := x, pos_y := y, rect := { p.rect with x := x, y := y } }

/-- Embeds `RectPlayer::onCollision` (src/player.cpp): vertical normals
ground/unground the player and zero the vertical velocity, horizontal
normals zero the horizontal velocity. -/
def onCollision (p : RectPlayer) (normalX normalY _penetration : ℚ) :
    RectPlayer :=
  if |normalY| > 1/2 then
    if normalY < 0 then
      resetJump (setGrounded true { p with vel_y := 0 })
    else
      setGrounded false (if p.vel_y < 0 then { p with vel_y := 0 } else p)
  else if |normalX| > 1/2 then
    setGrounded false { p with vel_x := 0 }
  else p

end RectPlayer

namespace CollisionSystem

/-- Embeds `CollisionSystem::handlePlayerVsStatic`
(src/collision_system.cpp) for a static collider with fixed bounds:
computes the MTV once, invokes the player's `onCollision` callback (the
static `Platform::onCollision` is a no-op), then pushes the player out by
`penetration` along the normal. -/
def handlePlayerVsStatic (cfg : PConfig) (p : RectPlayer)
    (staticBounds : FRect) : RectPlayer :=
  let info := computeCollisionInfo (RectPlayer.getCollisionBounds cfg p)
    staticBounds
  let p1 := RectPlayer.onCollision p info.normalX info.normalY
    info.penetration
  RectPlayer.setPos (p1.pos_x + info.normalX * info.penetration)
    (p1.pos_y + info.normalY * info.penetration) p1

end CollisionSystem

/-- One simulation tick of the player in free flight, as sequenced by
`Game::handleInput` (src/game.cpp): `handleMovement` with the per-tick
input booleans followed by `update`. The map-dependent steps in between
(ground probe, collision resolution) act only through tiles and are
omitted: the modelled scenario is unobstructed flight above a supporting
surface. -/
def tick (cfg : PConfig) (dt : ℚ)
    (moveLeft moveRight jump fastFall dash crouch : Bool)
    (p : RectPlayer) : RectPlayer :=
  RectPlayer.update dt
    (RectPlayer.handleMovement cfg dt moveLeft moveRight jump fastFall dash
      crouch p)

/-- The per-tick `pos_y` trajectory of a player that holds the jump input
for the first `hold` of `total` ticks and releases it afterwards, all
other inputs absent. -/
def runJump (cfg : PConfig) (dt : ℚ) (hold total : ℕ) (p : RectPlayer) :
    List ℚ :=
  match total with
  | 0 => []
  | Nat.succ t =>
    let p1 := tick cfg dt false false (hold != 0) false false false p
    p1.pos_y :: runJump cfg dt (hold - 1) t p1

/-- Embeds `DisappearingPlatform::State`
(include/disappearing_platform.h). -/
inductive DPState where
  | VISIBLE
  | DISAPPEARING
  | DISAPPEARED
  | REAPPEARING
deriving DecidableEq, Repr

/-- Embeds the state of `DisappearingPlatform`
(include/disappearing_platform.h): the platform bounds inherited from
`Platform` plus the timed state machine. The delays come from the absent
`config.h` (`DISAPPEAR_DELAY_MS / 1000`, `REAPPEAR_DELAY_MS / 1000`) and
stay abstract per-platform fields. -/
structure DisappearingPlatform where
  bounds : FRect
  state : DPState
  triggered : Bool
  timer : ℚ
  disappearDelay : ℚ
  reappearDelay : ℚ
deriving DecidableEq, Repr

namespace DisappearingPlatform

/-- Embeds `DisappearingPlatform::canCollide`. -/
def canCollide (p : DisappearingPlatform) : Bool :=
  p.state == DPState.VISIBLE

/-- Embeds `DisappearingPlatform::getCollisionBounds`
(src/disappearing_platform.cpp): an empty rect whenever the platform
cannot collide. -/
def getCollisionBounds (p : DisappearingPlatform) : FRect :=
  if !canCollide p then ⟨0, 0, 0, 0⟩ else p.bounds

/-- Embeds `DisappearingPlatform::onCollision`
(src/disappearing_platform.cpp): a no-op unless VISIBLE; the first PLAYER
collision with `normalY > 0` latches the trigger and starts
DISAPPEARING with the timer reset. (The `Platform::onCollision` call and
the logging are no-ops.) -/
def onCollision (p : DisappearingPlatform) (otherType : ObjectType)
    (_normalX normalY _penetration : ℚ) : DisappearingPlatform :=
  if p.state ≠ DPState.VISIBLE then p
  else if otherType = ObjectType.PLAYER ∧ normalY > 0 ∧ p.triggered = false
  then { p with triggered := true, state := DPState.DISAPPEARING, timer := 0 }
  else p

/-- Embeds `DisappearingPlatform::update`
(src/disappearing_platform.cpp): the timer advances whenever the state is
not VISIBLE, then the switch on the state (translated to an if-chain over
the four mutually exclusive states) performs the time-driven
transitions. -/
def update (dt : ℚ) (p : DisappearingPlatform) : DisappearingPlatform :=
  let p := if p.state ≠ DPState.VISIBLE then { p with timer := p.timer + dt }
    else p
  if p.state = DPState.VISIBLE then p
  else if p.state = DPState.DISAPPEARING then
    if p.timer ≥ p.disappearDelay then
      { p with state := DPState.DISAPPEARED, timer := 0 }
    else p
  else if p.state = DPState.DISAPPEARED then
    if p.timer ≥ p.reappearDelay then
      { p with state := DPState.REAPPEARING, timer := 0 }
    else p
  else { p with state := DPState.VISIBLE, triggered := false, timer := 0 }

end DisappearingPlatform

/-- Embeds the disappearing-platform part of `Map::getTilesInRect`
(src/map.cpp): a platform enters the candidate list only when
`canCollide()` holds and its collision bounds strictly overlap the query
rect. -/
def mapIncludesDisappearing (p : DisappearingPlatform) (rect : FRect) :
    Bool :=
  DisappearingPlatform.canCollide p &&
    (decide ((DisappearingPlatform.getCollisionBounds p).x <
        rect.x + rect.w) &&
      decide ((DisappearingPlatform.getCollisionBounds p).x +
          (DisappearingPlatform.getCollisionBounds p).w > rect.x) &&
      decide ((DisappearingPlatform.getCollisionBounds p).y <
        rect.y + rect.h) &&
      decide ((DisappearingPlatform.getCollisionBounds p).y +
          (DisappearingPlatform.getCollisionBounds p).h > rect.y))

/-- A disappearing platform in the hidden (DISAPPEARED) state, used by
witness theorems. -/
def exampleHiddenPlatform : DisappearingPlatform :=
  { bounds := ⟨5, 5, 32, 32⟩
    state := DPState.DISAPPEARED
    triggered := true
    timer := 0
    disappearDelay := 1
    reappearDelay := 3 }

/-- A visible, untriggered disappearing platform, used by witness
theorems. -/
def exampleVisiblePlatform : DisappearingPlatform :=
  { bounds := ⟨5, 5, 32, 32⟩
    state := DPState.VISIBLE
    triggered := false
    timer := 0
    disappearDelay := 1
    reappearDelay := 3 }

/-- Embeds `Projectile::ProjectileType` (include/projectile.h). -/
inductive ProjectileType where
  | COIN
  | ARROW
  | BULLET
deriving DecidableEq, Repr

/-- Embeds the state of `Projectile` (include/projectile.h): bounds,
variant, velocity, the coin-bob timer and base height, the removal flag
and the stored original (spawn) position. The sprite's rendered
destination rect is kept as `spriteDestY` (only its `y` is ever moved, by
the coin bob; `x`/`w`/`h` track `bounds`). -/
structure Projectile where
  bounds : FRect
  projectileType : ProjectileType
  vel_x : ℚ
  vel_y : ℚ
  baseY : ℚ
  bobTimer : ℚ
  spriteDestY : ℚ
  shouldRemove : Bool
  originalX : ℚ
  originalY : ℚ
deriving DecidableEq, Repr

namespace Projectile

/-- Embeds `Projectile::getCollisionBounds`. -/
def getCollisionBounds (p : Projectile) : FRect := p.bounds

/-- Embeds `Projectile::markForRemoval`. -/
def markForRemoval (p : Projectile) : Projectile :=
  { p with shouldRemove := true }

/-- Embeds `Projectile::resetToOriginalPosition` (include/projectile.h):
moves the bounds back to the stored spawn position and clears the removal
flag. -/
def resetToOriginalPosition (p : Projectile) : Projectile :=
  { p with bounds := { p.bounds with x := p.originalX, y := p.originalY },
           shouldRemove := false }

/-- The world-bounds test of `Projectile::update` (src/projectile.cpp):
the projectile's bounds have moved entirely past the world rectangle. -/
def outOfWorld (b world : FRect) : Bool :=
  decide (b.x + b.w < world.x) || decide (b.x > world.x + world.w) ||
    decide (b.y + b.h < world.y) || decide (b.y > world.y + world.h)

/-- The bounds after the position-integration part of
`Projectile::update`: unchanged for a COIN (coins use the visual bob
only), moved by `vel * dt` otherwise. -/
def integratedBounds (p : Projectile) (dt : ℚ) : FRect :=
  if p.projectileType = ProjectileType.COIN then p.bounds
  else { p.bounds with x := p.bounds.x + p.vel_x * dt,
                       y := p.bounds.y + p.vel_y * dt }

/-- Embeds `Projectile::update` (src/projectile.cpp), parameterised by
`bob`, the bob-offset function of the updated bob timer (in the source
`sin(t * bobFrequency * 2π) * bobAmplitude`, kept abstract because the
claims do not depend on its values): coin bob on the sprite dest rect,
position integration for non-coins, then the world-bounds check that
respawns ARROWs at their original position and marks the others for
removal. -/
def update (bob : ℚ → ℚ) (dt : ℚ) (worldBounds : FRect) (p : Projectile) :
    Projectile :=
  let p :=
    if p.projectileType = ProjectileType.COIN then
      { p with bobTimer := p.bobTimer + dt,
               spriteDestY := p.baseY + bob (p.bobTimer + dt) }
    else p
  let p := { p with bounds := integratedBounds p dt }
  if outOfWorld p.bounds worldBounds then
    if p.projectileType = ProjectileType.ARROW then resetToOriginalPosition p
    else markForRemoval p
  else p

/-- Embeds `Projectile::onCollision` (src/projectile.cpp) restricted to
its effect on the projectile itself (the ARROW-vs-player branch mutates
the player, not the projectile): coins are collected on player contact,
ARROWs respawn at their original position on static contact, other
projectiles disappear on static impact. -/
def onCollision (p : Projectile) (otherType : ObjectType) : Projectile :=
  if otherType = ObjectType.PLAYER then
    if p.projectileType = ProjectileType.COIN then markForRemoval p
    else p
  else if otherType = ObjectType.STATIC_OBJECT then
    if p.projectileType = ProjectileType.ARROW then resetToOriginalPosition p
    else markForRemoval p
  else p

end Projectile

namespace CollisionSystem

/-- Embeds `CollisionSystem::resolveCollisions` (src/collision_system.cpp)
at its call site (src/game.cpp), where the candidate objects are map
tiles, i.e. static colliders: the loop tests the player against each
candidate's bounds and dispatches `handlePlayerVsStatic` on overlap. A
null pointer in the list is `none`; the loop body dereferences
`obj->getCollisionBounds()` with no null check, so hitting a `none` entry
is undefined behaviour, modelled as aborting with result `none`. -/
def resolveCollisions (cfg : PConfig) (player : RectPlayer) :
    List (Option FRect) → Option RectPlayer
  | [] => some player
  | obj :: rest =>
    match obj with
    | none => none
    | some o =>
      if checkAABB (RectPlayer.getCollisionBounds cfg player) o then
        resolveCollisions cfg (handlePlayerVsStatic cfg player o) rest
      else resolveCollisions cfg player rest

end CollisionSystem

/-- Embeds the `Layer` tile grid (include/layer.h): a `width`×`height`
grid of optional static colliders (represented by their bounds) at fixed
tile dimensions. -/
structure Layer where
  width : ℤ
  height : ℤ
  tileSizeW : ℤ
  tileSizeH : ℤ
  tiles : ℤ → ℤ → Option FRect

namespace Layer

/-- Embeds `Layer::inBounds` (src/layer.cpp). -/
def inBounds (L : Layer) (x y : ℤ) : Bool :=
  decide (x ≥ 0) && decide (x < L.width) && decide (y ≥ 0) &&
    decide (y < L.height)

/-- Embeds `Layer::getTile` (src/layer.cpp): null outside the grid. -/
def getTile (L : Layer) (x y : ℤ) : Option FRect :=
  if L.inBounds x y then L.tiles x y else none

/-- Embeds `Layer::worldToTile` (src/layer.cpp): C++ `int` division
truncates toward zero. -/
def worldToTile (L : Layer) (wx wy : ℤ) : ℤ × ℤ :=
  (Int.tdiv wx L.tileSizeW, Int.tdiv wy L.tileSizeH)

/-- The integers from `lo` to `hi` inclusive (a C++
`for (i = lo; i <= hi; ++i)` loop). -/
def intRange (lo hi : ℤ) : List ℤ :=
  (List.range (hi + 1 - lo).toNat).map (fun i => lo + (i : ℤ))

/-- Embeds `Layer::getTilesInRect` (src/layer.cpp): floor the query
rect's corners, convert to tile coordinates, clamp to the grid, and
collect the non-null tiles of the covered sub-rectangle — the null
filter at this boundary (`if (tile) result.push_back(tile)`) is what
keeps nulls out of collision candidate lists. -/
def getTilesInRect (L : Layer) (r : FRect) : List FRect :=
  let t0 := L.worldToTile ⌊r.x⌋ ⌊r.y⌋
  let t1 := L.worldToTile ⌊r.x + r.w⌋ ⌊r.y + r.h⌋
  let x0 := max 0 t0.1
  let y0 := max 0 t0.2
  let x1 := min (L.width - 1) t1.1
  let y1 := min (L.height - 1) t1.2
  (intRange y0 y1).flatMap
    (fun y => (intRange x0 x1).filterMap (fun x => L.getTile x y))

end Layer

/-- A concrete ARROW projectile used by witness theorems. -/
def exampleArrow : Projectile :=
  { bounds := ⟨100, 10, 8, 8⟩
    projectileType := ProjectileType.ARROW
    vel_x := 50
    vel_y := 0
    baseY := 10
    bobTimer := 0
    spriteDestY := 10
    shouldRemove := false
    originalX := 3
    originalY := 10 }

/-- A concrete COIN projectile used by witness theorems. -/
def exampleCoin : Projectile :=
  { bounds := ⟨20, 20, 8, 8⟩
    projectileType := ProjectileType.COIN
    vel_x := 0
    vel_y := 0
    baseY := 20
    bobTimer := 0
    spriteDestY := 20
    shouldRemove := false
    originalX := 20
    originalY := 20 }

/-- A concrete instantiation of the `config.h` constants used by the
witness theorems (shrink percentages zero, the movement constants at the
values documented in `include/player.h`). -/
def exampleConfig : PConfig :=
  { playerSpeed := 200
    playerJumpForce := 300
    playerJumpReducedForce := 150
    slowSpeedMultiplier := 1/2
    slowJumpMultiplier := 1/2
    playerFastFallSpeed := 400
    idleParams := ⟨0, 0, 0, 0, 0⟩
    movingParams := ⟨0, 0, 0, 0, 0⟩
    jumpingParams := ⟨0, 0, 0, 0, 0⟩
    crouchParams := ⟨0, 0, 0, 0, 0⟩ }

/-- A concrete player state used by the witness theorems: a grounded,
idle 2×2 player at the origin. -/
def examplePlayer : RectPlayer :=
  { rect := ⟨0, 0, 2, 2⟩
    pos_x := 0
    pos_y := 0
    state := MovementState.IDLE
    vel_x := 0
    vel_y := 0
    gravity := 450
    onGround := true
    isJumping := false
    jumpDuration := 250
    jumpTimer := 0
    lastDirection := 1
    crouching := false
    dashing := false
    dashSpeed := 1000
    dashDuration := 1/5
    dashTimer := 0
    dashCooldown := 3/5
    dashCooldownTimer := 0
    dashDirection := Direction.RIGHT
    isSlowed := false }

section CollisionLemmas

open CollisionSystem

lemma checkAABB_iff (a b : FRect) :
    checkAABB a b = true ↔
      a.x < b.x + b.w ∧ a.x + a.w > b.x ∧ a.y < b.y + b.h ∧ a.y + a.h > b.y := by
  simp [checkAABB, and_assoc]

lemma checkAABB_eq_false_iff (a b : FRect) :
    checkAABB a b = false ↔
      ¬(a.x < b.x + b.w ∧ a.x + a.w > b.x ∧ a.y < b.y + b.h ∧ a.y + a.h > b.y) := by
  rw [← checkAABB_iff, Bool.eq_false_iff, ne_eq]

/-- Pushing box `a` out of box `b` by `penetration` along the computed
normal separates the two boxes, provided the penetration is strictly
smaller than all four box dimensions (which rules out one box containing
the other on the chosen axis). -/
lemma pushOut_separates (a b : FRect) (hov : checkAABB a b = true)
    (haw : (computeCollisionInfo a b).penetration < a.w)
    (hah : (computeCollisionInfo a b).penetration < a.h)
    (hbw : (computeCollisionInfo a b).penetration < b.w)
    (hbh : (computeCollisionInfo a b).penetration < b.h) :
    checkAABB
      ⟨a.x + (computeCollisionInfo a b).normalX *
          (computeCollisionInfo a b).penetration,
        a.y + (computeCollisionInfo a b).normalY *
          (computeCollisionInfo a b).penetration,
        a.w, a.h⟩ b = false := by
  rw [checkAABB_iff] at hov
  obtain ⟨h1, h2, h3, h4⟩ := hov
  rw [checkAABB_eq_false_iff]
  unfold computeCollisionInfo at haw hah hbw hbh ⊢
  by_cases hsel : overlapX a b < overlapY a b
  · -- horizontal separation axis
    rw [if_pos hsel] at haw hah hbw hbh ⊢
    dsimp only at haw hah hbw hbh ⊢
    unfold overlapX at haw hbw ⊢
    by_cases hc : a.x + a.w / 2 < b.x + b.w / 2
    · rw [if_pos hc]
      rintro ⟨-, k2, -, -⟩
      rcases min_cases (a.x + a.w) (b.x + b.w) with ⟨hm, hm'⟩ | ⟨hm, hm'⟩ <;>
        rcases max_cases a.x b.x with ⟨hx, hx'⟩ | ⟨hx, hx'⟩ <;>
          rw [hm, hx] at k2 haw hbw <;> linarith
    · rw [if_neg hc]
      rw [not_lt] at hc
      rintro ⟨k1, -, -, -⟩
      rcases min_cases (a.x + a.w) (b.x + b.w) with ⟨hm, hm'⟩ | ⟨hm, hm'⟩ <;>
        rcases max_cases a.x b.x with ⟨hx, hx'⟩ | ⟨hx, hx'⟩ <;>
          rw [hm, hx] at k1 haw hbw <;> linarith
  · -- vertical separation axis
    rw [if_neg hsel] at haw hah hbw hbh ⊢
    dsimp only at haw hah hbw hbh ⊢
    unfold overlapY at hah hbh ⊢
    by_cases hc : a.y + a.h / 2 < b.y + b.h / 2
    · rw [if_pos hc]
      rintro ⟨-, -, -, k4⟩
      rcases min_cases (a.y + a.h) (b.y + b.h) with ⟨hm, hm'⟩ | ⟨hm, hm'⟩ <;>
        rcases max_cases a.y b.y with ⟨hy, hy'⟩ | ⟨hy, hy'⟩ <;>
          rw [hm, hy] at k4 hah hbh <;> linarith
    · rw [if_neg hc]
      rw [not_lt] at hc
      rintro ⟨-, -, k3, -⟩
      rcases min_cases (a.y + a.h) (b.y + b.h) with ⟨hm, hm'⟩ | ⟨hm, hm'⟩ <;>
        rcases max_cases a.y b.y with ⟨hy, hy'⟩ | ⟨hy, hy'⟩ <;>
          rw [hm, hy] at k3 hah hbh <;> linarith

end CollisionLemmas

/-- C3: `checkAABB(a, b)` returns true iff the boxes' open intervals
overlap on both axes with strict inequality on all four comparisons;
just-touching boxes (zero-size overlap) do not count as colliding. -/
theorem c3_checkAABB_strict_overlap (a b : FRect) :
    CollisionSystem.checkAABB a b = true ↔
      a.x < b.x + b.w ∧ a.x + a.w > b.x ∧ a.y < b.y + b.h ∧ a.y + a.h > b.y :=
  checkAABB_iff a b

/-- C1: for overlapping boxes, `computeCollisionInfo` reports as
penetration the smaller of the two axis overlaps, picks the horizontal
axis only on strict `overlapX < overlapY` (an exact tie resolves to the
vertical axis), zeroes the other normal component, and orients the unit
normal on the chosen axis by comparing box centers (toward `a`'s side,
away from `b`'s). -/
theorem c1_computeCollisionInfo_spec (a b : FRect)
    (hov : CollisionSystem.checkAABB a b = true) :
    (CollisionSystem.computeCollisionInfo a b).penetration =
        min (CollisionSystem.overlapX a b) (CollisionSystem.overlapY a b) ∧
      (CollisionSystem.overlapX a b < CollisionSystem.overlapY a b →
        CollisionSystem.computeCollisionInfo a b =
          { normalX := if a.x + a.w / 2 < b.x + b.w / 2 then -1 else 1
            normalY := 0
            penetration := CollisionSystem.overlapX a b }) ∧
      (CollisionSystem.overlapY a b ≤ CollisionSystem.overlapX a b →
        CollisionSystem.computeCollisionInfo a b =
          { normalX := 0
            normalY := if a.y + a.h / 2 < b.y + b.h / 2 then -1 else 1
            penetration := CollisionSystem.overlapY a b }) ∧
      (CollisionSystem.overlapX a b = CollisionSystem.overlapY a b →
        (CollisionSystem.computeCollisionInfo a b).normalX = 0) := by
  clear hov
  refine ⟨?_, fun hlt => ?_, fun hle => ?_, fun heq => ?_⟩
  · by_cases h : CollisionSystem.overlapX a b < CollisionSystem.overlapY a b
    · unfold CollisionSystem.computeCollisionInfo
      rw [if_pos h]
      exact (min_eq_left h.le).symm
    · unfold CollisionSystem.computeCollisionInfo
      rw [if_neg h]
      exact (min_eq_right (not_lt.mp h)).symm
  · unfold CollisionSystem.computeCollisionInfo
    rw [if_pos hlt]
  · unfold CollisionSystem.computeCollisionInfo
    rw [if_neg (not_lt.mpr hle)]
  · unfold CollisionSystem.computeCollisionInfo
    rw [if_neg (not_lt.mpr heq.ge)]

/-- Witness for C1 at a concrete tie: two 2×2 boxes offset by (1, 1) have
equal overlaps, and the vertical axis is chosen. -/
theorem c1_computeCollisionInfo_spec_witness :
    CollisionSystem.checkAABB ⟨0, 0, 2, 2⟩ ⟨1, 1, 2, 2⟩ = true ∧
      (CollisionSystem.computeCollisionInfo ⟨0, 0, 2, 2⟩ ⟨1, 1, 2, 2⟩).normalX = 0 := by
  refine ⟨by norm_num [CollisionSystem.checkAABB], ?_⟩
  have h := c1_computeCollisionInfo_spec ⟨0, 0, 2, 2⟩ ⟨1, 1, 2, 2⟩
    (by norm_num [CollisionSystem.checkAABB])
  exact h.2.2.2
    (by norm_num [CollisionSystem.overlapX, CollisionSystem.overlapY])

section PlayerVsStaticLemmas

open CollisionSystem RectPlayer

lemma onCollision_preserves (p : RectPlayer) (nx ny pen : ℚ) :
    (RectPlayer.onCollision p nx ny pen).rect = p.rect ∧
      (RectPlayer.onCollision p nx ny pen).pos_x = p.pos_x ∧
      (RectPlayer.onCollision p nx ny pen).pos_y = p.pos_y ∧
      (RectPlayer.onCollision p nx ny pen).state = p.state ∧
      (RectPlayer.onCollision p nx ny pen).lastDirection = p.lastDirection := by
  unfold RectPlayer.onCollision setGrounded resetJump
  split_ifs <;> exact ⟨rfl, rfl, rfl, rfl, rfl⟩

lemma getCollisionBounds_handlePlayerVsStatic (cfg : PConfig)
    (p : RectPlayer) (s : FRect)
    (hx : p.rect.x = p.pos_x) (hy : p.rect.y = p.pos_y) :
    RectPlayer.getCollisionBounds cfg (handlePlayerVsStatic cfg p s) =
      { RectPlayer.getCollisionBounds cfg p with
        x := (RectPlayer.getCollisionBounds cfg p).x +
          (computeCollisionInfo (RectPlayer.getCollisionBounds cfg p) s).normalX *
          (computeCollisionInfo (RectPlayer.getCollisionBounds cfg p) s).penetration
        y := (RectPlayer.getCollisionBounds cfg p).y +
          (computeCollisionInfo (RectPlayer.getCollisionBounds cfg p) s).normalY *
          (computeCollisionInfo (RectPlayer.getCollisionBounds cfg p) s).penetration } := by
  unfold handlePlayerVsStatic
  dsimp only
  set i := computeCollisionInfo (RectPlayer.getCollisionBounds cfg p) s with hi
  obtain ⟨hr, hpx, hpy, hst, hld⟩ :=
    onCollision_preserves p i.normalX i.normalY i.penetration
  set q := RectPlayer.onCollision p i.normalX i.normalY i.penetration with hq
  unfold RectPlayer.setPos RectPlayer.getCollisionBounds
  dsimp only
  rw [hr, hpx, hpy, hst, hld, hx, hy]
  simp only [FRect.mk.injEq, and_true, true_and]
  constructor
  · split_ifs <;> ring
  · ring

end PlayerVsStaticLemmas

/-- C2: resolving one overlapping player-vs-static pair with
`handlePlayerVsStatic` fully separates it — re-running `checkAABB` on the
player's updated collision bounds against the same static box returns
false — whenever the penetration is smaller than the box dimensions; the
player's shrunk collision box translates rigidly with its position, and
the collision callback run before the push-out does not change its shape. -/
theorem c2_handlePlayerVsStatic_separates (cfg : PConfig) (p : RectPlayer)
    (s : FRect)
    (hx : p.rect.x = p.pos_x) (hy : p.rect.y = p.pos_y)
    (hov : CollisionSystem.checkAABB (RectPlayer.getCollisionBounds cfg p) s = true)
    (haw : (CollisionSystem.computeCollisionInfo
        (RectPlayer.getCollisionBounds cfg p) s).penetration <
      (RectPlayer.getCollisionBounds cfg p).w)
    (hah : (CollisionSystem.computeCollisionInfo
        (RectPlayer.getCollisionBounds cfg p) s).penetration <
      (RectPlayer.getCollisionBounds cfg p).h)
    (hbw : (CollisionSystem.computeCollisionInfo
        (RectPlayer.getCollisionBounds cfg p) s).penetration < s.w)
    (hbh : (CollisionSystem.computeCollisionInfo
        (RectPlayer.getCollisionBounds cfg p) s).penetration < s.h) :
    CollisionSystem.checkAABB
      (RectPlayer.getCollisionBounds cfg
        (CollisionSystem.handlePlayerVsStatic cfg p s)) s = false := by
  rw [getCollisionBounds_handlePlayerVsStatic cfg p s hx hy]
  exact pushOut_separates (RectPlayer.getCollisionBounds cfg p) s hov haw hah
    hbw hbh

/-- Witness for C2: the example player overlapping a 2×2 tile at (1, 1)
is pushed out and no longer collides with it. -/
theorem c2_handlePlayerVsStatic_separates_witness :
    CollisionSystem.checkAABB
        (RectPlayer.getCollisionBounds exampleConfig examplePlayer)
        ⟨1, 1, 2, 2⟩ = true ∧
      CollisionSystem.checkAABB
        (RectPlayer.getCollisionBounds exampleConfig
          (CollisionSystem.handlePlayerVsStatic exampleConfig examplePlayer
            ⟨1, 1, 2, 2⟩))
        ⟨1, 1, 2, 2⟩ = false := by
  have hb : RectPlayer.getCollisionBounds exampleConfig examplePlayer =
      ⟨0, 0, 2, 2⟩ := by
    norm_num [RectPlayer.getCollisionBounds, RectPlayer.shrinkFor,
      examplePlayer, exampleConfig]
  have hpen : (CollisionSystem.computeCollisionInfo
      (RectPlayer.getCollisionBounds exampleConfig examplePlayer)
      ⟨1, 1, 2, 2⟩).penetration = 1 := by
    rw [hb]
    norm_num [CollisionSystem.computeCollisionInfo, CollisionSystem.overlapX,
      CollisionSystem.overlapY]
  have hov : CollisionSystem.checkAABB
      (RectPlayer.getCollisionBounds exampleConfig examplePlayer)
      ⟨1, 1, 2, 2⟩ = true := by
    rw [hb]
    norm_num [CollisionSystem.checkAABB]
  refine ⟨hov, c2_handlePlayerVsStatic_separates exampleConfig examplePlayer
    ⟨1, 1, 2, 2⟩ rfl rfl hov ?_ ?_ ?_ ?_⟩ <;> rw [hpen] <;>
    first
      | rw [hb]
      | skip
  · norm_num
  · norm_num
  · norm_num
  · norm_num

section PlayerStepLemmas

open RectPlayer

lemma setCrouch_false (p : RectPlayer) :
    setCrouch false p = { p with crouching := false } := rfl

lemma dashInputStep_preserves (d : Bool) (p : RectPlayer) :
    (dashInputStep d p).pos_y = p.pos_y ∧
      (dashInputStep d p).vel_y = p.vel_y ∧
      (dashInputStep d p).gravity = p.gravity ∧
      (dashInputStep d p).onGround = p.onGround ∧
      (dashInputStep d p).crouching = p.crouching := by
  unfold dashInputStep startDash stopDash canDash
  split_ifs <;> exact ⟨rfl, rfl, rfl, rfl, rfl⟩

lemma dashInputStep_false_dashing (p : RectPlayer) :
    (dashInputStep false p).dashing = false := by
  unfold dashInputStep stopDash
  split_ifs <;> simp_all

lemma dashInputStep_false_cooldown (p : RectPlayer) (hd : p.dashing = true) :
    (dashInputStep false p).dashCooldownTimer = p.dashCooldown ∧
      (dashInputStep false p).dashCooldown = p.dashCooldown := by
  unfold dashInputStep stopDash
  split_ifs <;> simp_all

lemma horizontalStep_preserves (cfg : PConfig) (mL mR : Bool)
    (p : RectPlayer) :
    (horizontalStep cfg mL mR p).pos_y = p.pos_y ∧
      (horizontalStep cfg mL mR p).vel_y = p.vel_y ∧
      (horizontalStep cfg mL mR p).gravity = p.gravity ∧
      (horizontalStep cfg mL mR p).onGround = p.onGround ∧
      (horizontalStep cfg mL mR p).crouching = p.crouching ∧
      (horizontalStep cfg mL mR p).dashing = p.dashing ∧
      (horizontalStep cfg mL mR p).dashCooldownTimer = p.dashCooldownTimer ∧
      (horizontalStep cfg mL mR p).dashCooldown = p.dashCooldown := by
  unfold horizontalStep
  dsimp only
  split_ifs <;> exact ⟨rfl, rfl, rfl, rfl, rfl, rfl, rfl, rfl⟩

lemma jumpStep_preserves (cfg : PConfig) (dt : ℚ) (j : Bool)
    (p : RectPlayer) :
    (jumpStep cfg dt j p).pos_y = p.pos_y ∧
      (jumpStep cfg dt j p).gravity = p.gravity ∧
      (jumpStep cfg dt j p).dashing = p.dashing ∧
      (jumpStep cfg dt j p).dashCooldownTimer = p.dashCooldownTimer ∧
      (jumpStep cfg dt j p).dashCooldown = p.dashCooldown := by
  unfold jumpStep resetJump
  dsimp only
  split_ifs <;> exact ⟨rfl, rfl, rfl, rfl, rfl⟩

lemma jumpStep_crouching (cfg : PConfig) (dt : ℚ) (j : Bool)
    (p : RectPlayer) (hc : p.crouching = false) :
    (jumpStep cfg dt j p).crouching = false := by
  unfold jumpStep resetJump
  dsimp only
  split_ifs <;> simp_all

lemma jumpStep_false (cfg : PConfig) (dt : ℚ) (p : RectPlayer) :
    jumpStep cfg dt false p = RectPlayer.resetJump p := rfl

lemma fastFallStep_preserves (cfg : PConfig) (dt : ℚ) (fF : Bool)
    (p : RectPlayer) :
    (fastFallStep cfg dt fF p).pos_y = p.pos_y ∧
      (fastFallStep cfg dt fF p).gravity = p.gravity ∧
      (fastFallStep cfg dt fF p).onGround = p.onGround ∧
      (fastFallStep cfg dt fF p).crouching = p.crouching ∧
      (fastFallStep cfg dt fF p).dashing = p.dashing ∧
      (fastFallStep cfg dt fF p).dashCooldownTimer = p.dashCooldownTimer ∧
      (fastFallStep cfg dt fF p).dashCooldown = p.dashCooldown := by
  unfold fastFallStep
  split_ifs <;> exact ⟨rfl, rfl, rfl, rfl, rfl, rfl, rfl⟩

lemma fastFallStep_false (cfg : PConfig) (dt : ℚ) (p : RectPlayer) :
    fastFallStep cfg dt false p = p := rfl

lemma handleMovement_crouchFalse (cfg : PConfig) (dt : ℚ)
    (mL mR j fF d : Bool) (p : RectPlayer) :
    handleMovement cfg dt mL mR j fF d false p =
      fastFallStep cfg dt fF
        (jumpStep cfg dt j
          { horizontalStep cfg mL mR (dashInputStep d (setCrouch false p)) with
            vel_y :=
              (horizontalStep cfg mL mR
                (dashInputStep d (setCrouch false p))).gravity * dt }) := rfl

end PlayerStepLemmas

/-- C10: releasing the dash input while a dash is active ends the dash on
that tick inside `handleMovement` — `dashing` becomes false and the
cooldown timer is set to the full configured cooldown — even when the
dash timer is still strictly below the dash duration. -/
theorem c10_dash_release_stops_dash (cfg : PConfig) (dt : ℚ)
    (moveLeft moveRight jump fastFall : Bool) (p : RectPlayer)
    (hd : p.dashing = true) (ht : p.dashTimer < p.dashDuration) :
    (RectPlayer.handleMovement cfg dt moveLeft moveRight jump fastFall false
        false p).dashing = false ∧
      (RectPlayer.handleMovement cfg dt moveLeft moveRight jump fastFall false
        false p).dashCooldownTimer = p.dashCooldown := by
  clear ht
  rw [handleMovement_crouchFalse]
  set A := RectPlayer.setCrouch false p with hA_def
  set B := RectPlayer.dashInputStep false A with hB_def
  set C := RectPlayer.horizontalStep cfg moveLeft moveRight B with hC_def
  set D := { C with vel_y := C.gravity * dt } with hD_def
  set E := RectPlayer.jumpStep cfg dt jump D with hE_def
  obtain ⟨-, -, -, -, hFd, hFct, -⟩ := fastFallStep_preserves cfg dt fastFall E
  obtain ⟨-, -, hEd, hEct, -⟩ := jumpStep_preserves cfg dt jump D
  have hDd : D.dashing = C.dashing := rfl
  have hDct : D.dashCooldownTimer = C.dashCooldownTimer := rfl
  obtain ⟨-, -, -, -, -, hCd, hCct, -⟩ :=
    horizontalStep_preserves cfg moveLeft moveRight B
  have hBd := dashInputStep_false_dashing A
  obtain ⟨hBct, -⟩ := dashInputStep_false_cooldown A hd
  have hAcd : A.dashCooldown = p.dashCooldown := rfl
  constructor
  · rw [hFd, hEd, hDd, hCd, hBd]
  · rw [hFct, hEct, hDct, hCct, hBct, hAcd]

/-- Witness for C10: the example player mid-dash, dash input released. -/
theorem c10_dash_release_stops_dash_witness :
    ({ examplePlayer with dashing := true } : RectPlayer).dashTimer <
        ({ examplePlayer with dashing := true } : RectPlayer).dashDuration ∧
      (RectPlayer.handleMovement exampleConfig (1/60) false false false false
          false false { examplePlayer with dashing := true }).dashing = false ∧
      (RectPlayer.handleMovement exampleConfig (1/60) false false false false
          false false
          { examplePlayer with dashing := true }).dashCooldownTimer =
        ({ examplePlayer with dashing := true } : RectPlayer).dashCooldown := by
  refine ⟨?_, c10_dash_release_stops_dash exampleConfig (1/60) false false
    false false { examplePlayer with dashing := true } rfl ?_⟩ <;>
    norm_num [examplePlayer]

section JumpMonotonicity

open RectPlayer

lemma handleMovement_run_fields (cfg : PConfig) (dt : ℚ) (j : Bool)
    (p : RectPlayer) :
    (handleMovement cfg dt false false j false false false p).pos_y = p.pos_y ∧
      (handleMovement cfg dt false false j false false false p).gravity =
        p.gravity ∧
      (handleMovement cfg dt false false j false false false p).crouching =
        false ∧
      (handleMovement cfg dt false false j false false false p).dashing =
        false := by
  rw [handleMovement_crouchFalse]
  set A := RectPlayer.setCrouch false p with hA_def
  set B := RectPlayer.dashInputStep false A with hB_def
  set C := RectPlayer.horizontalStep cfg false false B with hC_def
  set D := { C with vel_y := C.gravity * dt } with hD_def
  set E := RectPlayer.jumpStep cfg dt j D with hE_def
  obtain ⟨hFp, hFg, -, hFc, hFd, -, -⟩ := fastFallStep_preserves cfg dt false E
  obtain ⟨hEp, hEg, hEd, -, -⟩ := jumpStep_preserves cfg dt j D
  obtain ⟨hBp, -, hBg, -, hBc⟩ := dashInputStep_preserves false A
  obtain ⟨hCp, -, hCg, -, hCc, hCd, -, -⟩ :=
    horizontalStep_preserves cfg false false B
  have hBd := dashInputStep_false_dashing A
  have hDc : D.crouching = false := by
    show C.crouching = false
    rw [hCc, hBc]
    rfl
  have hEc := jumpStep_crouching cfg dt j D hDc
  refine ⟨?_, ?_, ?_, ?_⟩
  · rw [hFp, hEp]
    show C.pos_y = p.pos_y
    rw [hCp, hBp]
    rfl
  · rw [hFg, hEg]
    show C.gravity = p.gravity
    rw [hCg, hBg]
    rfl
  · rw [hFc, hEc]
  · rw [hFd, hEd]
    show C.dashing = false
    rw [hCd, hBd]

lemma handleMovement_release_vel_y (cfg : PConfig) (dt : ℚ) (p : RectPlayer) :
    (handleMovement cfg dt false false false false false false p).vel_y =
        p.gravity * dt ∧
      (handleMovement cfg dt false false false false false false p).onGround =
        p.onGround := by
  rw [handleMovement_crouchFalse, fastFallStep_false, jumpStep_false]
  set A := RectPlayer.setCrouch false p with hA_def
  set B := RectPlayer.dashInputStep false A with hB_def
  set C := RectPlayer.horizontalStep cfg false false B with hC_def
  obtain ⟨-, -, hBg, hBo, -⟩ := dashInputStep_preserves false A
  obtain ⟨-, -, hCg, hCo, -, -, -, -⟩ := horizontalStep_preserves cfg false
    false B
  constructor
  · show C.gravity * dt = p.gravity * dt
    rw [hCg, hBg]
    rfl
  · show C.onGround = p.onGround
    rw [hCo, hBo]
    rfl

lemma updateDash_preserves (dt : ℚ) (p : RectPlayer) :
    (updateDash dt p).pos_y = p.pos_y ∧
      (updateDash dt p).vel_y = p.vel_y ∧
      (updateDash dt p).gravity = p.gravity ∧
      (updateDash dt p).onGround = p.onGround ∧
      (updateDash dt p).crouching = p.crouching := by
  unfold updateDash stopDash
  dsimp only
  split_ifs <;> exact ⟨rfl, rfl, rfl, rfl, rfl⟩

lemma updateDash_dashing_false (dt : ℚ) (p : RectPlayer)
    (hd : p.dashing = false) :
    (updateDash dt p).dashing = false := by
  unfold updateDash stopDash
  dsimp only
  split_ifs <;> simp_all

lemma integrateStep_gravity (dt : ℚ) (p : RectPlayer) :
    (integrateStep dt p).gravity = p.gravity := by
  unfold integrateStep
  dsimp only
  split_ifs <;> rfl

lemma integrateStep_pos_y (dt : ℚ) (p : RectPlayer) (hd : p.dashing = false) :
    (integrateStep dt p).pos_y =
      p.pos_y + (if p.onGround = true ∧ p.vel_y > 0 then 0 else p.vel_y) := by
  unfold integrateStep
  dsimp only
  rw [if_neg (by simp [hd])]
  split_ifs <;> simp_all

lemma update_gravity (dt : ℚ) (q : RectPlayer) :
    (update dt q).gravity = q.gravity := by
  obtain ⟨-, -, hg1, -, -⟩ := updateDash_preserves dt q
  unfold update
  dsimp only
  split_ifs
  · exact hg1
  · show (RectPlayer.integrateStep dt (RectPlayer.updateDash dt q)).gravity =
      q.gravity
    rw [integrateStep_gravity]
    exact hg1

lemma update_pos_y_of (dt : ℚ) (q : RectPlayer)
    (hc : q.crouching = false) (hd : q.dashing = false) :
    (update dt q).pos_y =
      q.pos_y + (if q.onGround = true ∧ q.vel_y > 0 then 0 else q.vel_y) := by
  obtain ⟨hpy, hvy, -, hog, hcr⟩ := updateDash_preserves dt q
  have hdd := updateDash_dashing_false dt q hd
  unfold update
  dsimp only
  rw [if_neg (by simp [hcr, hc])]
  show (RectPlayer.integrateStep dt (RectPlayer.updateDash dt q)).pos_y = _
  rw [integrateStep_pos_y dt _ hdd, hpy, hvy, hog]

lemma tick_run_gravity (cfg : PConfig) (dt : ℚ) (j : Bool) (p : RectPlayer) :
    (tick cfg dt false false j false false false p).gravity = p.gravity := by
  unfold tick
  rw [update_gravity]
  exact (handleMovement_run_fields cfg dt j p).2.1

lemma tick_release_pos_y_le (cfg : PConfig) (dt : ℚ) (p : RectPlayer)
    (hg : 0 ≤ p.gravity) (hdt : 0 ≤ dt) :
    p.pos_y ≤ (tick cfg dt false false false false false false p).pos_y := by
  obtain ⟨h1, -, h3, h4⟩ := handleMovement_run_fields cfg dt false p
  obtain ⟨h5, h6⟩ := handleMovement_release_vel_y cfg dt p
  unfold tick
  rw [update_pos_y_of _ _ h3 h4, h1, h5, h6]
  have hm : 0 ≤ p.gravity * dt := mul_nonneg hg hdt
  split_ifs <;> linarith

lemma runJump_zero_ge (cfg : PConfig) (dt : ℚ) :
    ∀ (total : ℕ) (p : RectPlayer), 0 ≤ p.gravity → 0 ≤ dt →
      ∀ x ∈ runJump cfg dt 0 total p, p.pos_y ≤ x := by
  intro total
  induction total with
  | zero =>
    intro p _ _ x hx
    simp [runJump] at hx
  | succ t ih =>
    intro p hg hdt x hx
    rw [runJump] at hx
    rcases List.mem_cons.mp hx with rfl | hx
    · exact tick_release_pos_y_le cfg dt p hg hdt
    · refine le_trans (tick_release_pos_y_le cfg dt p hg hdt) ?_
      refine ih _ ?_ hdt x hx
      rw [tick_run_gravity]
      exact hg

lemma foldl_min_le_init (l : List ℚ) : ∀ a : ℚ, List.foldl min a l ≤ a := by
  induction l with
  | nil => intro a; simp
  | cons x xs ih =>
    intro a
    calc List.foldl min (min a x) xs ≤ min a x := ih _
      _ ≤ a := min_le_left a x

lemma foldl_min_of_ge (l : List ℚ) :
    ∀ a b : ℚ, a ≤ b → (∀ x ∈ l, b ≤ x) → List.foldl min a l = a := by
  induction l with
  | nil => intro a b _ _; rfl
  | cons y ys ih =>
    intro a b hab hall
    rw [List.foldl_cons,
      min_eq_left (le_trans hab (hall y (List.mem_cons_self y ys)))]
    exact ih a b hab (fun x hx => hall x (List.mem_cons_of_mem y hx))

lemma runJump_min_mono (cfg : PConfig) (dt : ℚ) :
    ∀ (n m total : ℕ) (p : RectPlayer) (a : ℚ), 0 ≤ p.gravity → 0 ≤ dt →
      n ≤ m → a ≤ p.pos_y →
      List.foldl min a (runJump cfg dt m total p) ≤
        List.foldl min a (runJump cfg dt n total p) := by
  intro n
  induction n with
  | zero =>
    intro m total p a hg hdt _ ha
    rw [foldl_min_of_ge _ a p.pos_y ha (runJump_zero_ge cfg dt total p hg hdt)]
    exact foldl_min_le_init _ a
  | succ k ih =>
    intro m total p a hg hdt hnm ha
    obtain ⟨m', rfl⟩ : ∃ m', m = m' + 1 := ⟨m - 1, by omega⟩
    cases total with
    | zero => simp [runJump]
    | succ t =>
      rw [runJump, runJump]
      simp only [Nat.add_sub_cancel]
      rw [List.foldl_cons, List.foldl_cons]
      refine ih m' t _ _ ?_ hdt (by omega) (min_le_right _ _)
      rw [tick_run_gravity]
      exact hg

end JumpMonotonicity

/-- C4: for a grounded player that jumps and holds the jump input for the
first `n` of `total` ticks (all other inputs absent, `dt` and the tick
count held equal, gravity and `dt` nonnegative), the minimum `pos_y`
reached over the trajectory is monotone in the hold length: releasing the
jump input earlier (`n ≤ m`) never yields a smaller minimum `pos_y`
(greater peak height) than holding it longer. -/
theorem c4_jump_height_monotone_in_hold (cfg : PConfig) (dt : ℚ)
    (n m total : ℕ) (p : RectPlayer)
    (hg : 0 ≤ p.gravity) (hdt : 0 ≤ dt) (hground : p.onGround = true)
    (hnc : p.crouching = false) (hnd : p.dashing = false) (hnm : n ≤ m) :
    List.foldl min p.pos_y (runJump cfg dt m total p) ≤
      List.foldl min p.pos_y (runJump cfg dt n total p) :=
  runJump_min_mono cfg dt n m total p p.pos_y hg hdt hnm le_rfl

/-- Witness for C4: the example player, 60 Hz tick, holding jump for 1
vs 2 of 4 ticks. -/
theorem c4_jump_height_monotone_in_hold_witness :
    List.foldl min examplePlayer.pos_y
        (runJump exampleConfig (1/60) 2 4 examplePlayer) ≤
      List.foldl min examplePlayer.pos_y
        (runJump exampleConfig (1/60) 1 4 examplePlayer) :=
  c4_jump_height_monotone_in_hold exampleConfig (1/60) 1 2 4 examplePlayer
    (by norm_num [examplePlayer]) (by norm_num) rfl rfl rfl
    (by norm_num)

section DisappearingPlatformLemmas

open DisappearingPlatform

lemma dpOnCollision_trigger (p : DisappearingPlatform) (nx ny pen : ℚ)
    (h1 : p.state = DPState.VISIBLE) (h2 : p.triggered = false)
    (h3 : 0 < ny) :
    DisappearingPlatform.onCollision p ObjectType.PLAYER nx ny pen =
      { p with triggered := true, state := DPState.DISAPPEARING,
               timer := 0 } := by
  unfold DisappearingPlatform.onCollision
  rw [if_neg (by simp [h1]), if_pos ⟨rfl, h3, h2⟩]

lemma dpOnCollision_nonvisible (p : DisappearingPlatform) (t : ObjectType)
    (nx ny pen : ℚ) (h : p.state ≠ DPState.VISIBLE) :
    DisappearingPlatform.onCollision p t nx ny pen = p := by
  unfold DisappearingPlatform.onCollision
  rw [if_pos h]

lemma dpBounds_nonvisible (p : DisappearingPlatform)
    (h : p.state ≠ DPState.VISIBLE) :
    DisappearingPlatform.getCollisionBounds p = ⟨0, 0, 0, 0⟩ := by
  unfold DisappearingPlatform.getCollisionBounds canCollide
  rw [if_pos]
  simp [h]

lemma dpUpdate_DISAPPEARING (dt : ℚ) (p : DisappearingPlatform)
    (h : p.state = DPState.DISAPPEARING)
    (ht : p.timer + dt ≥ p.disappearDelay) :
    DisappearingPlatform.update dt p =
      { p with state := DPState.DISAPPEARED, timer := 0 } := by
  unfold DisappearingPlatform.update
  dsimp only
  rw [if_pos (show p.state ≠ DPState.VISIBLE by simp [h])]
  dsimp only
  simp only [h]
  simp [ht]

lemma dpUpdate_DISAPPEARED (dt : ℚ) (p : DisappearingPlatform)
    (h : p.state = DPState.DISAPPEARED)
    (ht : p.timer + dt ≥ p.reappearDelay) :
    DisappearingPlatform.update dt p =
      { p with state := DPState.REAPPEARING, timer := 0 } := by
  unfold DisappearingPlatform.update
  dsimp only
  rw [if_pos (show p.state ≠ DPState.VISIBLE by simp [h])]
  dsimp only
  simp only [h]
  simp [ht]

lemma dpUpdate_REAPPEARING (dt : ℚ) (p : DisappearingPlatform)
    (h : p.state = DPState.REAPPEARING) :
    DisappearingPlatform.update dt p =
      { p with state := DPState.VISIBLE, triggered := false, timer := 0 } := by
  unfold DisappearingPlatform.update
  dsimp only
  rw [if_pos (show p.state ≠ DPState.VISIBLE by simp [h])]
  dsimp only
  simp only [h]
  simp

lemma mapIncludesDisappearing_nonvisible (q : DisappearingPlatform)
    (r : FRect) (h : q.state ≠ DPState.VISIBLE) :
    mapIncludesDisappearing q r = false := by
  unfold mapIncludesDisappearing canCollide
  simp [h]

end DisappearingPlatformLemmas

/-- C5: a VISIBLE, untriggered disappearing platform, on its first PLAYER
collision with `normalY > 0`, enters DISAPPEARING with the timer reset;
advancing time by exactly `disappearDelay` yields DISAPPEARED with empty
collision bounds; advancing by `reappearDelay` more yields REAPPEARING;
one further update tick returns it to VISIBLE with the trigger latch
cleared, so a second top collision retriggers the cycle. In every state
other than VISIBLE, `getCollisionBounds` is the empty rect and
`onCollision` is a no-op. -/
theorem c5_disappearing_platform_cycle :
    (∀ (p : DisappearingPlatform) (nx ny pen dt : ℚ),
      p.state = DPState.VISIBLE → p.triggered = false → 0 < ny →
      (DisappearingPlatform.onCollision p ObjectType.PLAYER nx ny pen).state =
          DPState.DISAPPEARING ∧
        (DisappearingPlatform.onCollision p ObjectType.PLAYER nx ny
          pen).timer = 0 ∧
        (DisappearingPlatform.update p.disappearDelay
          (DisappearingPlatform.onCollision p ObjectType.PLAYER nx ny
            pen)).state = DPState.DISAPPEARED ∧
        DisappearingPlatform.getCollisionBounds
          (DisappearingPlatform.update p.disappearDelay
            (DisappearingPlatform.onCollision p ObjectType.PLAYER nx ny
              pen)) = ⟨0, 0, 0, 0⟩ ∧
        (DisappearingPlatform.update p.reappearDelay
          (DisappearingPlatform.update p.disappearDelay
            (DisappearingPlatform.onCollision p ObjectType.PLAYER nx ny
              pen))).state = DPState.REAPPEARING ∧
        (DisappearingPlatform.update dt
          (DisappearingPlatform.update p.reappearDelay
            (DisappearingPlatform.update p.disappearDelay
              (DisappearingPlatform.onCollision p ObjectType.PLAYER nx ny
                pen)))).state = DPState.VISIBLE ∧
        (DisappearingPlatform.update dt
          (DisappearingPlatform.update p.reappearDelay
            (DisappearingPlatform.update p.disappearDelay
              (DisappearingPlatform.onCollision p ObjectType.PLAYER nx ny
                pen)))).triggered = false ∧
        (DisappearingPlatform.onCollision
          (DisappearingPlatform.update dt
            (DisappearingPlatform.update p.reappearDelay
              (DisappearingPlatform.update p.disappearDelay
                (DisappearingPlatform.onCollision p ObjectType.PLAYER nx ny
                  pen)))) ObjectType.PLAYER nx ny pen).state =
          DPState.DISAPPEARING) ∧
      (∀ (q : DisappearingPlatform) (t : ObjectType) (nx ny pen : ℚ),
        q.state ≠ DPState.VISIBLE →
        DisappearingPlatform.getCollisionBounds q = ⟨0, 0, 0, 0⟩ ∧
          DisappearingPlatform.onCollision q t nx ny pen = q) := by
  constructor
  · intro p nx ny pen dt h1 h2 h3
    rw [dpOnCollision_trigger p nx ny pen h1 h2 h3]
    rw [dpUpdate_DISAPPEARING _ _ rfl (by simp)]
    rw [dpUpdate_DISAPPEARED _ _ rfl (by simp)]
    rw [dpUpdate_REAPPEARING _ _ rfl]
    refine ⟨rfl, rfl, rfl, dpBounds_nonvisible _ (by simp), rfl, rfl, rfl, ?_⟩
    rw [dpOnCollision_trigger _ nx ny pen rfl rfl h3]
  · intro q t nx ny pen h
    exact ⟨dpBounds_nonvisible q h, dpOnCollision_nonvisible q t nx ny pen h⟩

/-- Witness for C5: a concrete visible platform driven through the whole
cycle, and the hidden example platform for the non-VISIBLE contract. -/
theorem c5_disappearing_platform_cycle_witness :
    ((DisappearingPlatform.update 1
      (DisappearingPlatform.update exampleVisiblePlatform.reappearDelay
        (DisappearingPlatform.update exampleVisiblePlatform.disappearDelay
          (DisappearingPlatform.onCollision exampleVisiblePlatform
            ObjectType.PLAYER 0 1 2)))).state = DPState.VISIBLE ∧
      DisappearingPlatform.getCollisionBounds exampleHiddenPlatform =
        ⟨0, 0, 0, 0⟩) := by
  have h := c5_disappearing_platform_cycle
  refine ⟨?_, (h.2 exampleHiddenPlatform ObjectType.PLAYER 0 0 0
    (by simp [exampleHiddenPlatform])).1⟩
  exact (h.1 exampleVisiblePlatform 0 1 2 1 rfl rfl
    (by norm_num)).2.2.2.2.2.1

/-- C9: `checkAABB` is not guaranteed false for an empty box — a 0×0 box
with its corner strictly inside another box does collide — so a hidden
disappearing platform (bounds `{0,0,0,0}`) is excluded from the spatial
query by the `canCollide()` filter in `Map::getTilesInRect`, not by the
empty rect alone. -/
theorem c9_empty_rect_collides_filter_excludes :
    (CollisionSystem.checkAABB ⟨1, 1, 0, 0⟩ ⟨0, 0, 2, 2⟩ = true ∧
        (0 : ℚ) < 1 ∧ (1 : ℚ) < 0 + 2) ∧
      (CollisionSystem.checkAABB
          (DisappearingPlatform.getCollisionBounds exampleHiddenPlatform)
          ⟨-1, -1, 2, 2⟩ = true ∧
        mapIncludesDisappearing exampleHiddenPlatform ⟨-1, -1, 2, 2⟩ =
          false) ∧
      (∀ (q : DisappearingPlatform) (r : FRect),
        q.state ≠ DPState.VISIBLE → mapIncludesDisappearing q r = false) := by
  refine ⟨⟨?_, by norm_num, by norm_num⟩, ⟨?_, ?_⟩, ?_⟩
  · norm_num [CollisionSystem.checkAABB]
  · rw [dpBounds_nonvisible exampleHiddenPlatform
      (by simp [exampleHiddenPlatform])]
    norm_num [CollisionSystem.checkAABB]
  · exact mapIncludesDisappearing_nonvisible exampleHiddenPlatform _
      (by simp [exampleHiddenPlatform])
  · intro q r h
    exact mapIncludesDisappearing_nonvisible q r h

/-- Witness for C9 at a concrete hidden platform and query rect. -/
theorem c9_empty_rect_collides_filter_excludes_witness :
    mapIncludesDisappearing exampleHiddenPlatform ⟨0, 0, 64, 64⟩ = false :=
  c9_empty_rect_collides_filter_excludes.2.2 exampleHiddenPlatform
    ⟨0, 0, 64, 64⟩ (by simp [exampleHiddenPlatform])

section ProjectileLemmas

lemma coin_integratedBounds (dt : ℚ) (p : Projectile)
    (hC : p.projectileType = ProjectileType.COIN) :
    Projectile.integratedBounds p dt = p.bounds := by
  unfold Projectile.integratedBounds
  rw [if_pos hC]

lemma coin_update_fields (bob : ℚ → ℚ) (dt : ℚ) (w : FRect) (p : Projectile)
    (hC : p.projectileType = ProjectileType.COIN) :
    (Projectile.update bob dt w p).bounds = p.bounds ∧
      (Projectile.update bob dt w p).projectileType = ProjectileType.COIN ∧
      (Projectile.update bob dt w p).spriteDestY =
        p.baseY + bob (p.bobTimer + dt) := by
  unfold Projectile.update Projectile.markForRemoval
    Projectile.resetToOriginalPosition
  dsimp only
  rw [if_pos hC,
    coin_integratedBounds dt
      { p with bobTimer := p.bobTimer + dt,
               spriteDestY := p.baseY + bob (p.bobTimer + dt) } hC]
  split_ifs <;> first
    | exact ⟨rfl, hC, rfl⟩
    | simp_all

end ProjectileLemmas

/-- C6: an ARROW whose integrated bounds move past the world rectangle
during an update tick — or that collides with a static object — has its
position reset exactly to the stored original spawn coordinates on that
same tick and is not marked for removal; a non-ARROW projectile leaving
the world bounds is instead marked for removal. -/
theorem c6_arrow_respawn :
    (∀ (bob : ℚ → ℚ) (dt : ℚ) (w : FRect) (p : Projectile),
      p.projectileType = ProjectileType.ARROW →
      Projectile.outOfWorld (Projectile.integratedBounds p dt) w = true →
      (Projectile.update bob dt w p).bounds.x = p.originalX ∧
        (Projectile.update bob dt w p).bounds.y = p.originalY ∧
        (Projectile.update bob dt w p).shouldRemove = false) ∧
      (∀ p : Projectile, p.projectileType = ProjectileType.ARROW →
        (Projectile.onCollision p ObjectType.STATIC_OBJECT).bounds.x =
            p.originalX ∧
          (Projectile.onCollision p ObjectType.STATIC_OBJECT).bounds.y =
            p.originalY ∧
          (Projectile.onCollision p ObjectType.STATIC_OBJECT).shouldRemove =
            false) ∧
      (∀ (bob : ℚ → ℚ) (dt : ℚ) (w : FRect) (p : Projectile),
        p.projectileType ≠ ProjectileType.ARROW →
        Projectile.outOfWorld (Projectile.integratedBounds p dt) w = true →
        (Projectile.update bob dt w p).shouldRemove = true) := by
  refine ⟨?_, ?_, ?_⟩
  · intro bob dt w p hA hOut
    unfold Projectile.update
    dsimp only
    rw [if_neg (show ¬(p.projectileType = ProjectileType.COIN) by
      simp [hA])]
    rw [if_pos hOut, if_pos hA]
    exact ⟨rfl, rfl, rfl⟩
  · intro p hA
    unfold Projectile.onCollision
    rw [if_neg (by decide), if_pos rfl, if_pos hA]
    exact ⟨rfl, rfl, rfl⟩
  · intro bob dt w p hN hOut
    unfold Projectile.update
    dsimp only
    by_cases hC : p.projectileType = ProjectileType.COIN
    · rw [if_pos hC]
      dsimp only
      rw [coin_integratedBounds dt
        { p with bobTimer := p.bobTimer + dt,
                 spriteDestY := p.baseY + bob (p.bobTimer + dt) } hC]
      rw [coin_integratedBounds dt p hC] at hOut
      dsimp only
      rw [if_pos hOut,
        if_neg (show ¬(p.projectileType = ProjectileType.ARROW) by
          simp [hC])]
      rfl
    · rw [if_neg hC]
      rw [if_pos hOut, if_neg hN]
      rfl

/-- Witness for C6: the example arrow leaves a 64×64 world after one
tick at `dt = 1` and respawns at its original position. -/
theorem c6_arrow_respawn_witness :
    Projectile.outOfWorld (Projectile.integratedBounds exampleArrow 1)
        ⟨0, 0, 64, 64⟩ = true ∧
      (Projectile.update (fun _ => 0) 1 ⟨0, 0, 64, 64⟩
          exampleArrow).bounds.x = exampleArrow.originalX ∧
      (Projectile.update (fun _ => 0) 1 ⟨0, 0, 64, 64⟩
          exampleArrow).shouldRemove = false := by
  have hIB : Projectile.integratedBounds exampleArrow 1 =
      ⟨150, 10, 8, 8⟩ := by
    unfold Projectile.integratedBounds
    rw [if_neg (show ¬(exampleArrow.projectileType = ProjectileType.COIN)
      by decide)]
    norm_num [exampleArrow]
  have hOut : Projectile.outOfWorld
      (Projectile.integratedBounds exampleArrow 1) ⟨0, 0, 64, 64⟩ = true := by
    rw [hIB]
    norm_num [Projectile.outOfWorld]
  have h := c6_arrow_respawn.1 (fun _ => 0) 1 ⟨0, 0, 64, 64⟩ exampleArrow rfl
    hOut
  exact ⟨hOut, h.1, h.2.2⟩

/-- C7: a COIN's collision bounds are unchanged by any number of `update`
calls — simulation time only moves the sprite's rendered destination
(through the bob offset of the advanced bob timer), never
`getCollisionBounds`. -/
theorem c7_coin_bounds_stable :
    (∀ (bob : ℚ → ℚ) (w : FRect) (p : Projectile) (dts : List ℚ),
      p.projectileType = ProjectileType.COIN →
      Projectile.getCollisionBounds
          (dts.foldl (fun q dt => Projectile.update bob dt w q) p) =
        Projectile.getCollisionBounds p) ∧
      (∀ (bob : ℚ → ℚ) (dt : ℚ) (w : FRect) (p : Projectile),
        p.projectileType = ProjectileType.COIN →
        (Projectile.update bob dt w p).spriteDestY =
          p.baseY + bob (p.bobTimer + dt)) := by
  constructor
  · intro bob w p dts hC
    unfold Projectile.getCollisionBounds
    induction dts generalizing p with
    | nil => rfl
    | cons dt dts ih =>
      obtain ⟨hb, hty, -⟩ := coin_update_fields bob dt w p hC
      rw [List.foldl_cons, ih (Projectile.update bob dt w p) hty, hb]
  · intro bob dt w p hC
    exact (coin_update_fields bob dt w p hC).2.2

/-- Witness for C7: the example coin keeps its bounds over two ticks. -/
theorem c7_coin_bounds_stable_witness :
    Projectile.getCollisionBounds
        (([1, 2] : List ℚ).foldl
          (fun q dt => Projectile.update (fun _ => 0) dt ⟨0, 0, 64, 64⟩ q)
          exampleCoin) =
      Projectile.getCollisionBounds exampleCoin :=
  c7_coin_bounds_stable.1 (fun _ => 0) ⟨0, 0, 64, 64⟩ exampleCoin [1, 2] rfl

/-- Counterexample for C8 as stated: `resolveCollisions` does not skip a
null candidate — the loop dereferences every entry's bounds with no null
check, so a list holding a null entry crashes (modelled as result
`none`) instead of leaving the player untouched. -/
theorem c8_counterexample :
    CollisionSystem.resolveCollisions exampleConfig examplePlayer [none] =
        none ∧
      CollisionSystem.resolveCollisions exampleConfig examplePlayer [none] ≠
        some examplePlayer := by
  refine ⟨rfl, ?_⟩
  intro h
  rw [show CollisionSystem.resolveCollisions exampleConfig examplePlayer
    [none] = none from rfl] at h
  exact Option.noConfusion h

/-- C8 (amended): the defensive null filter sits at the boundary, not in
`resolveCollisions` — `Layer::getTilesInRect` only emits non-null tiles,
and on any candidate list free of nulls `resolveCollisions` runs to
completion (returns a player, i.e. does not crash); in particular it does
so on every candidate list produced by the spatial query. -/
theorem c8_null_filtered_at_boundary :
    (∀ (cfg : PConfig) (pl : RectPlayer) (objects : List (Option FRect)),
      (∀ o ∈ objects, o ≠ none) →
      ∃ q, CollisionSystem.resolveCollisions cfg pl objects = some q) ∧
      (∀ (cfg : PConfig) (pl : RectPlayer) (L : Layer) (r : FRect),
        ∃ q, CollisionSystem.resolveCollisions cfg pl
          ((Layer.getTilesInRect L r).map some) = some q) := by
  have main : ∀ (cfg : PConfig) (objects : List (Option FRect))
      (pl : RectPlayer), (∀ o ∈ objects, o ≠ none) →
      ∃ q, CollisionSystem.resolveCollisions cfg pl objects = some q := by
    intro cfg objects
    induction objects with
    | nil => exact fun pl _ => ⟨pl, rfl⟩
    | cons obj rest ih =>
      intro pl hall
      cases obj with
      | none => exact absurd rfl (hall none (List.mem_cons_self none rest))
      | some o =>
        unfold CollisionSystem.resolveCollisions
        dsimp only
        split_ifs with h
        · exact ih _ (fun x hx => hall x (List.mem_cons_of_mem _ hx))
        · exact ih _ (fun x hx => hall x (List.mem_cons_of_mem _ hx))
  refine ⟨fun cfg pl objects hall => main cfg objects pl hall,
    fun cfg pl L r => main cfg _ pl ?_⟩
  intro o ho
  obtain ⟨x, -, rfl⟩ := List.mem_map.mp ho
  exact Option.noConfusion

/-- Witness for C8 (amended) on a concrete null-free candidate list. -/
theorem c8_null_filtered_at_boundary_witness :
    ∃ q, CollisionSystem.resolveCollisions exampleConfig examplePlayer
      [some ⟨1, 1, 2, 2⟩] = some q :=
  c8_null_filtered_at_boundary.1 exampleConfig examplePlayer
    [some ⟨1, 1, 2, 2⟩] (by simp)

end TrappySdl
